import Mathlib

/-!
Verification of the IMS-to-TIF converter scripts.

The definitions below are a shallow embedding of the Python sources:
`ims2tif.py` (plain conversion path), `smart_converter.py` (empty-slice
filtering path), `advanced_converter.py` (export variants) and
`recursive_converter.py` (batch orchestration). Pixel data is modelled as
nested lists of natural numbers (the scripts read unsigned 8/16-bit
microscopy data), the hierarchical HDF5 container as a record of the key
lists the navigation code actually touches, and Python exceptions as an
explicit error type.
-/

namespace Ims2Tif

/-- A 2D plane of pixel values: one Z-slice of the image stack. -/
abbrev Plane := List (List Nat)

/-- A 3D image stack: planes along the leading (Z) axis, mirroring the
numpy array read from the container's `Data` dataset. -/
abbrev Image := List Plane

/-- Result of one conversion: either the whole stack, or — when a Z-slice
selector was applied — a single plane. -/
inductive OutputData where
  | stack (img : Image)
  | plane (p : Plane)
  deriving Repr, DecidableEq

/-- Errors raised while navigating and extracting. Each constructor mirrors
one `raise` site (or an uncaught Python exception) in the sources; all are
caught by the scripts' broad `except` clauses and turned into a `False`
return value. -/
inductive NavError where
  /-- `ims2tif.py` line 109: `ValueError("No resolution levels found in IMS file")`. -/
  | noResolutionLevels
  /-- `ims2tif.py` line 115: `ValueError("ResolutionLevel 0 not found")`. -/
  | resolutionLevel0Missing
  /-- `ValueError("No TimePoint data found")`. -/
  | noTimePoints
  /-- `ValueError("No Channel data found")`. -/
  | noChannels
  /-- `ims2tif.py` line 143: `ValueError(f"TimePoint {tp_key} not found")`. -/
  | timePointKeyMissing
  /-- `ims2tif.py` line 171: `ValueError("No image data found")`. -/
  | noDataNode
  /-- `ims2tif.py` lines 136/164: `ValueError(f"... {requested} not available.
  Available: {available}")` — carries the requested index and the list of
  available keys (whose length is the valid count). -/
  | indexOutOfRange (requested : Int) (available : List String)
  /-- A raw Python `IndexError` from a plain list subscript (the positional
  selections in `smart_converter.py` / `advanced_converter.py`). -/
  | pyIndexError
  /-- A Python `KeyError` from subscripting an h5py group with an absent key. -/
  | keyError
  /-- `ims2tif.py` line 182: `ValueError(f"Z slice {requested} not available.
  Max: {depth - 1}")`. -/
  | zSliceOutOfRange (requested : Int) (depth : Nat)
  /-- `advanced_converter.py` line 91: `ValueError(f"Unknown export type: ...")`. -/
  | unknownExportType
  deriving Repr, DecidableEq

/-- Python `s.startswith(pre)` (and the `k.startswith(...)` list
comprehensions): character-level check, structurally recursive so that it
evaluates by kernel reduction. -/
def startsWithKey (s pre : String) : Bool :=
  pre.data.isPrefixOf s.data

/-- Python list subscript `xs[i]`: nonnegative indices count from the
front, negative indices from the back, anything else raises `IndexError`
(modelled as `none`). -/
def pyGet (xs : List α) (i : Int) : Option α :=
  if 0 ≤ i then xs[i.toNat]?
  else if -(xs.length : Int) ≤ i then xs[((xs.length : Int) + i).toNat]?
  else none

/-- The sibling keys the navigation code reads from one container: the
children of the HDF5 groups `DataSet`, `DataSet/ResolutionLevel 0`, each
timepoint group, and the `Data` dataset under each timepoint/channel pair
(`none` when absent). Key order is the store's native iteration order. -/
structure Container where
  datasetKeys : List String
  resLevel0Keys : List String
  tpChildKeys : String → List String
  dataAt : String → String → Option Image

/-- `ims2tif.py` lines 128-136 (timepoint) and 156-164 (channel): two-tier
key selection. With no selector, the first key is used. With selector `n`,
the literal key `"<pfx> n"` is preferred when present; else, if
`n < len(keys)`, the Python subscript `keys[n]`; else
`ValueError(f"... not available. Available: {keys}")`. -/
def selectKeyTwoTier (pfx : String) (keys : List String) (sel : Option Int) :
    Except NavError String :=
  match sel with
  | none =>
    match keys with
    | [] => .error .pyIndexError
    | k :: _ => .ok k
  | some n =>
    let target := pfx ++ " " ++ toString n
    if keys.contains target then .ok target
    else if n < (keys.length : Int) then
      match pyGet keys n with
      | some k => .ok k
      | none => .error .pyIndexError
    else .error (.indexOutOfRange n keys)

/-- `smart_converter.py` lines 49/57 and `advanced_converter.py` lines
60/69: purely positional key selection, `keys[n]` when a selector is
given and `keys[0]` otherwise; no literal-name match, no range check
beyond the `IndexError` the subscript itself raises. -/
def selectKeyPositional (keys : List String) (sel : Option Int) :
    Except NavError String :=
  match sel with
  | none =>
    match keys with
    | [] => .error .pyIndexError
    | k :: _ => .ok k
  | some n =>
    match pyGet keys n with
    | some k => .ok k
    | none => .error .pyIndexError

/-- `ims2tif.py` lines 107-115: enumerate the `ResolutionLevel`-prefixed
keys of `DataSet` and fail when there are none; then require the literal
key `"ResolutionLevel 0"` to be a member of `DataSet` and descend into it
(the enumerated group's own ordering is not consulted further). -/
def selectResolutionLevel (datasetKeys : List String) : Except NavError String :=
  let resolutionLevels := datasetKeys.filter (fun k => startsWithKey k "ResolutionLevel")
  if resolutionLevels.isEmpty then .error .noResolutionLevels
  else if datasetKeys.contains "ResolutionLevel 0" then .ok "ResolutionLevel 0"
  else .error .resolutionLevel0Missing

/-- `ims2tif.py` lines 180-183: Z-slice handling. With no selector the
whole stack is returned. With selector `z`, an explicit check raises when
`z >= shape[0]`; otherwise the numpy subscript `image_data[z]` is taken,
which resolves negative indices from the back and raises `IndexError`
below `-depth`. -/
def applyZSlice (img : Image) (zSlice : Option Int) : Except NavError OutputData :=
  match zSlice with
  | none => .ok (.stack img)
  | some z =>
    if (img.length : Int) ≤ z then .error (.zSliceOutOfRange z img.length)
    else
      match pyGet img z with
      | some p => .ok (.plane p)
      | none => .error .pyIndexError

/-- `ims2tif.py` lines 104-183, `IMS2TIFConverter.convert_ims_to_tif`:
the plain conversion path. Resolution level, then two-tier timepoint and
channel selection over the prefixed key groups, then the `Data` node,
then optional Z-slice extraction. -/
def convertImsToTif (c : Container) (timepoint channel zSlice : Option Int) :
    Except NavError OutputData := do
  let _resKey ← selectResolutionLevel c.datasetKeys
  let timepointKeys := c.resLevel0Keys.filter (fun k => startsWithKey k "TimePoint")
  if timepointKeys.isEmpty then throw .noTimePoints
  let tpKey ← selectKeyTwoTier "TimePoint" timepointKeys timepoint
  if ! c.resLevel0Keys.contains tpKey then throw .timePointKeyMissing
  let channelKeys := (c.tpChildKeys tpKey).filter (fun k => startsWithKey k "Channel")
  if channelKeys.isEmpty then throw .noChannels
  let chKey ← selectKeyTwoTier "Channel" channelKeys channel
  match c.dataAt tpKey chKey with
  | none => throw .noDataNode
  | some img => applyZSlice img zSlice

/-- `smart_converter.py` lines 41-61: navigation on the smart path. It
subscripts `f["DataSet/ResolutionLevel 0"]` directly (a `KeyError` when
absent, with no resolution-level enumeration), then selects timepoint and
channel purely positionally, then reads `Data` (a `KeyError` when absent). -/
def navigateSmart (c : Container) (timepoint channel : Option Int) :
    Except NavError Image := do
  if ! c.datasetKeys.contains "ResolutionLevel 0" then throw .keyError
  let timepointKeys := c.resLevel0Keys.filter (fun k => startsWithKey k "TimePoint")
  if timepointKeys.isEmpty then throw .noTimePoints
  let tpKey ← selectKeyPositional timepointKeys timepoint
  let channelKeys := (c.tpChildKeys tpKey).filter (fun k => startsWithKey k "Channel")
  if channelKeys.isEmpty then throw .noChannels
  let chKey ← selectKeyPositional channelKeys channel
  match c.dataAt tpKey chKey with
  | none => throw .keyError
  | some img => pure img

/-- Maximum pixel value of a plane, `image_data[z].max()`; `0` for an
empty plane (values are unsigned, so the seed never wins on real data). -/
def sliceMax (p : Plane) : Nat :=
  (p.map (fun row => row.foldr max 0)).foldr max 0

/-- `smart_converter.py` line 20: the default `empty_threshold=10` of
`convert_ims_to_tif_smart`. -/
def defaultEmptyThreshold : Nat := 10

/-- `smart_converter.py` lines 67-75: the indices `z` along axis 0 whose
slice maximum strictly exceeds the threshold, collected in ascending scan
order (`for z in range(image_data.shape[0])`). -/
def nonEmptyIndices (img : Image) (threshold : Nat) : List Nat :=
  (List.range img.length).filter (fun z => threshold < sliceMax (img.getD z []))

/-- `smart_converter.py` lines 82-92: keep exactly the non-empty slices
(numpy fancy indexing `image_data[non_empty_indices]`); when no slice is
non-empty, print a warning and use the whole unfiltered image. -/
def smartFilter (img : Image) (threshold : Nat) : Image :=
  let idx := nonEmptyIndices img threshold
  if idx.isEmpty then img
  else idx.filterMap (fun z => img[z]?)

/-- `smart_converter.py` lines 34-106, `SmartConverter.convert_ims_to_tif_smart`:
navigate (positionally), read the stack, and apply the empty-slice filter
when `filter_empty` is set. -/
def convertImsToTifSmart (c : Container) (timepoint channel : Option Int)
    (emptyThreshold : Nat := defaultEmptyThreshold) (filterEmpty : Bool := true) :
    Except NavError Image := do
  let img ← navigateSmart c timepoint channel
  if filterEmpty then pure (smartFilter img emptyThreshold)
  else pure img

/-- The OME metadata record built in `advanced_converter.py` lines
128-137. Physical sizes are the literal constant `1.0` (no arithmetic is
ever performed on them, so they are modelled as rationals); the unit
strings are the source's literal `"¬µm"`, a mis-encoded rendering of
`"µm"` (micrometers). -/
structure OmeMetadata where
  axes : String
  channelName : String
  physicalSizeX : ℚ
  physicalSizeY : ℚ
  physicalSizeZ : ℚ
  physicalSizeXUnit : String
  physicalSizeYUnit : String
  physicalSizeZUnit : String
  deriving Repr, DecidableEq

/-- The keyword options each `tifffile.imwrite` call passes: optional
metadata record, optional compression codec name, and the predictor flag
(the library defaults are `none`/`none`/`false` when not passed). -/
structure TiffWriteOptions where
  metadata : Option OmeMetadata
  compression : Option String
  predictor : Bool
  deriving Repr, DecidableEq

/-- `tifffile.imwrite` with no keyword options. -/
def defaultWriteOptions : TiffWriteOptions :=
  { metadata := none, compression := none, predictor := false }

/-- One written output file: its name, its pixel payload, and the writer
options used. -/
structure Artifact where
  path : String
  payload : OutputData
  options : TiffWriteOptions
  deriving Repr, DecidableEq

/-- The fixed metadata dict of `_export_ome_tiff` (`advanced_converter.py`
lines 128-137): axes `"ZYX"`, channel name `"Channel 0"`, unit physical
sizes, micrometer unit strings (source spelling `"¬µm"`). -/
def omeMetadata : OmeMetadata :=
  { axes := "ZYX"
    channelName := "Channel 0"
    physicalSizeX := 1
    physicalSizeY := 1
    physicalSizeZ := 1
    physicalSizeXUnit := "¬µm"
    physicalSizeYUnit := "¬µm"
    physicalSizeZUnit := "¬µm" }

/-- Python format `f"{z:03d}"` for a natural number: the decimal digits,
left-padded with zeros to a minimum width of 3. -/
def pyFormat03d (n : Nat) : String :=
  let s := toString n
  if s.length < 3 then String.mk (List.replicate (3 - s.length) '0') ++ s
  else s

/-- `advanced_converter.py` lines 97-103, `_export_3d_stack`: one artifact
holding the whole stack, no options. -/
def exportStack (outputPath : String) (img : Image) : List Artifact :=
  [{ path := outputPath, payload := .stack img, options := defaultWriteOptions }]

/-- `advanced_converter.py` lines 105-121, `_export_individual_slices`:
`num_slices = image_data.shape[0]` artifacts, one per leading-axis index
`z` in order, named `f"{base_name}_z{z:03d}.tif"` with payload
`image_data[z]`. The depth is taken from the array passed in. -/
def exportIndividualSlices (baseName : String) (img : Image) : List Artifact :=
  (List.range img.length).map (fun z =>
    { path := baseName ++ "_z" ++ pyFormat03d z ++ ".tif"
      payload := .plane (img.getD z [])
      options := defaultWriteOptions })

/-- `advanced_converter.py` lines 123-147, `_export_ome_tiff`: one
artifact with the fixed OME metadata record and `compression="lzw"`
(a lossless codec). -/
def exportOmeTiff (outputPath : String) (img : Image) : List Artifact :=
  [{ path := outputPath
     payload := .stack img
     options := { metadata := some omeMetadata, compression := some "lzw", predictor := false } }]

/-- `advanced_converter.py` lines 149-161, `_export_compressed`: one
artifact with `compression="lzw"` and `predictor=True`. -/
def exportCompressed (outputPath : String) (img : Image) : List Artifact :=
  [{ path := outputPath
     payload := .stack img
     options := { metadata := none, compression := some "lzw", predictor := true } }]

/-- `advanced_converter.py` lines 42-95, navigation on the advanced path:
the resolution-level group is enumerated and checked non-empty (lines
48-50), then `f["DataSet/ResolutionLevel 0"]` is subscripted directly
(`KeyError` when absent), then timepoint and channel are selected purely
positionally (lines 60/69), then `Data` is read (`KeyError` when absent). -/
def navigateAdvanced (c : Container) (timepoint channel : Option Int) :
    Except NavError Image := do
  let resolutionLevels := c.datasetKeys.filter (fun k => startsWithKey k "ResolutionLevel")
  if resolutionLevels.isEmpty then throw .noResolutionLevels
  if ! c.datasetKeys.contains "ResolutionLevel 0" then throw .keyError
  let timepointKeys := c.resLevel0Keys.filter (fun k => startsWithKey k "TimePoint")
  if timepointKeys.isEmpty then throw .noTimePoints
  let tpKey ← selectKeyPositional timepointKeys timepoint
  let channelKeys := (c.tpChildKeys tpKey).filter (fun k => startsWithKey k "Channel")
  if channelKeys.isEmpty then throw .noChannels
  let chKey ← selectKeyPositional channelKeys channel
  match c.dataAt tpKey chKey with
  | none => throw .keyError
  | some img => pure img

/-- `advanced_converter.py` lines 24-95, `AdvancedConverter.convert_with_options`:
navigate, then dispatch on the export-type string to one of the four
exporters. -/
def convertWithOptions (c : Container) (outputPath baseName exportType : String)
    (timepoint channel : Option Int) : Except NavError (List Artifact) := do
  let img ← navigateAdvanced c timepoint channel
  if exportType = "3d_stack" then pure (exportStack outputPath img)
  else if exportType = "individual_slices" then pure (exportIndividualSlices baseName img)
  else if exportType = "ome_tiff" then pure (exportOmeTiff outputPath img)
  else if exportType = "compressed" then pure (exportCompressed outputPath img)
  else throw .unknownExportType

/-- Outcome of the converter call made for one file inside the batch loop
of `recursive_converter.py`: the call returned `True`, returned `False`,
or raised an exception. -/
inductive ConvOutcome where
  | ok
  | err
  | exn
  deriving Repr, DecidableEq

/-- One discovered input file as the batch loop sees it: its name, whether
its target output path already exists, and what the per-file conversion
would do if invoked. -/
structure FileSpec where
  name : String
  outputExists : Bool
  result : ConvOutcome
  deriving Repr, DecidableEq

/-- The `self.stats` dictionary of `RecursiveConverter`. -/
structure BatchStats where
  totalFound : Nat
  successful : Nat
  failed : Nat
  skipped : Nat
  failedFiles : List String
  deriving Repr, DecidableEq

/-- The stats at the start of `convert_all_files`, after `total_found` has
been set to the length of the discovered file list. -/
def initialStats (total : Nat) : BatchStats :=
  { totalFound := total, successful := 0, failed := 0, skipped := 0, failedFiles := [] }

/-- `recursive_converter.py` lines 77-116, the body of the per-file loop:
skip (without invoking the converter) when the output exists and overwrite
is off; otherwise invoke the converter and record success, a `False`
return, or a raised exception — the latter two as `failed` with the file
name appended. -/
def processFile (overwrite : Bool) (st : BatchStats) (f : FileSpec) : BatchStats :=
  if f.outputExists && !overwrite then
    { st with skipped := st.skipped + 1 }
  else
    match f.result with
    | .ok => { st with successful := st.successful + 1 }
    | .err => { st with failed := st.failed + 1, failedFiles := st.failedFiles ++ [f.name] }
    | .exn => { st with failed := st.failed + 1, failedFiles := st.failedFiles ++ [f.name] }

/-- `recursive_converter.py` lines 57-120, `RecursiveConverter.convert_all_files`
over a fixed discovered file list: fold the per-file loop body over the
files in discovery order. -/
def convertAllFiles (overwrite : Bool) (files : List FileSpec) : BatchStats :=
  files.foldl (processFile overwrite) (initialStats files.length)

/-- Constant plane of height `h`, width `w`, value `v`. -/
def constPlane (h w v : Nat) : Plane := List.replicate h (List.replicate w v)

/-- The synthetic `(5, 4, 4)` array of the spec's worked example: slices
0, 2, 4 have maximum 50 and slices 1, 3 have maximum 0. -/
def testImage554 : Image :=
  [constPlane 4 4 50, constPlane 4 4 0, constPlane 4 4 50, constPlane 4 4 0, constPlane 4 4 50]

/-- Timepoint keys in HDF5 store (alphabetical) order for 11+ timepoints:
the literal "TimePoint 2" sits at position 3, while position 2 holds
"TimePoint 10". -/
def cxTimePointKeys : List String :=
  ["TimePoint 0", "TimePoint 1", "TimePoint 10", "TimePoint 2"]

/-- A container whose timepoint keys are `cxTimePointKeys`; the data under
"TimePoint 2" is distinguishable from the data under any other timepoint. -/
def cx : Container :=
  { datasetKeys := ["ResolutionLevel 0"]
    resLevel0Keys := cxTimePointKeys
    tpChildKeys := fun _ => ["Channel 0"]
    dataAt := fun tp _ => if tp = "TimePoint 2" then some [[[2]]] else some [[[10]]] }

/-- Container for the C2 counterexample: a single resolution level named
"ResolutionLevel 1" and a complete tree below it. -/
def c2x : Container :=
  { datasetKeys := ["ResolutionLevel 1"]
    resLevel0Keys := ["TimePoint 0"]
    tpChildKeys := fun _ => ["Channel 0"]
    dataAt := fun _ _ => some [[[1]]] }

/-- Channel key group for the C6 scenario: exactly two channels. -/
def c6ChannelKeys : List String := ["Channel 0", "Channel 1"]

/-- Container for the C6 scenario: a well-formed tree whose (only)
timepoint has exactly the two channel keys `c6ChannelKeys`. -/
def c6x : Container :=
  { datasetKeys := ["ResolutionLevel 0"]
    resLevel0Keys := ["TimePoint 0"]
    tpChildKeys := fun _ => c6ChannelKeys
    dataAt := fun _ _ => some [[[1]]] }

/-- A Python subscript with an in-range natural index returns that element. -/
theorem pyGet_natCast_of_lt (xs : List String) (n : Nat) (h : n < xs.length) :
    pyGet xs (n : Int) = some (xs.getD n "") := by
  rw [pyGet, if_pos (by exact_mod_cast Nat.zero_le n)]
  rw [Int.toNat_natCast]
  rw [List.getElem?_eq_getElem h, List.getD_eq_getElem xs "" h]

/-- String concatenation is associative. -/
theorem strAppendAssoc (a b c : String) : a ++ b ++ c = a ++ (b ++ c) := by
  rcases a with ⟨da⟩
  rcases b with ⟨db⟩
  rcases c with ⟨dc⟩
  show String.mk (da ++ db ++ dc) = String.mk (da ++ (db ++ dc))
  rw [List.append_assoc]

/-- Length of a string concatenation. -/
theorem strLengthAppend (a b : String) : (a ++ b).length = a.length + b.length := by
  rcases a with ⟨da⟩
  rcases b with ⟨db⟩
  show (da ++ db).length = da.length + db.length
  exact List.length_append da db

/-- Collecting in-range lookups loses nothing. -/
theorem filterMap_getElem_eq_map (img : Image) (idx : List Nat)
    (h : ∀ z ∈ idx, z < img.length) :
    idx.filterMap (fun z => img[z]?) = idx.map (fun z => img.getD z []) := by
  induction idx with
  | nil => rfl
  | cons a l ih =>
    have ha : a < img.length := h a (List.mem_cons_self a l)
    rw [List.filterMap_cons, List.map_cons]
    rw [List.getElem?_eq_getElem ha]
    rw [ih (fun z hz => h z (List.mem_cons_of_mem a hz))]
    rw [List.getD_eq_getElem img [] ha]

/-- One loop iteration adds exactly one outcome and keeps the total. -/
theorem processFile_outcome_sum (overwrite : Bool) (st : BatchStats) (f : FileSpec) :
    (processFile overwrite st f).successful + (processFile overwrite st f).failed +
        (processFile overwrite st f).skipped =
      st.successful + st.failed + st.skipped + 1 ∧
    (processFile overwrite st f).totalFound = st.totalFound := by
  unfold processFile
  split
  · exact ⟨by simp; omega, rfl⟩
  · cases f.result
    · exact ⟨by simp; omega, rfl⟩
    · exact ⟨by simp; omega, rfl⟩
    · exact ⟨by simp; omega, rfl⟩

/-- The loop adds exactly one outcome per file. -/
theorem foldl_processFile_outcome_sum (overwrite : Bool) (files : List FileSpec) (st : BatchStats) :
    (files.foldl (processFile overwrite) st).successful +
        (files.foldl (processFile overwrite) st).failed +
        (files.foldl (processFile overwrite) st).skipped =
      st.successful + st.failed + st.skipped + files.length ∧
    (files.foldl (processFile overwrite) st).totalFound = st.totalFound := by
  induction files generalizing st with
  | nil => simp
  | cons f fs ih =>
    rw [List.foldl_cons]
    have h1 := processFile_outcome_sum overwrite st f
    have h2 := ih (processFile overwrite st f)
    refine ⟨?_, by rw [h2.2, h1.2]⟩
    rw [h2.1, h1.1, List.length_cons]
    omega

/-- C1 (amended): on the plain conversion path (`ims2tif.py`), the
timepoint/channel selector resolves by the two-tier rule — a literal key
named `"<KeyGroup> n"` is preferred when present; otherwise, if `n` is a
valid position in the KeyGroup, the key at position `n` is chosen;
otherwise the operation fails with `IndexOutOfRange` carrying the request
and the key group. The smart and advanced paths instead resolve purely
positionally (last conjunct; the counterexample shows the divergence), so
the rule does NOT hold on every conversion path as originally claimed. -/
theorem timepoint_channel_two_tier_resolution (pfx : String) (keys : List String) (n : Nat) :
    ((pfx ++ " " ++ toString (n : Int)) ∈ keys →
      selectKeyTwoTier pfx keys (some (n : Int)) = .ok (pfx ++ " " ++ toString (n : Int))) ∧
    ((pfx ++ " " ++ toString (n : Int)) ∉ keys → n < keys.length →
      selectKeyTwoTier pfx keys (some (n : Int)) = .ok (keys.getD n "")) ∧
    ((pfx ++ " " ++ toString (n : Int)) ∉ keys → keys.length ≤ n →
      selectKeyTwoTier pfx keys (some (n : Int)) = .error (.indexOutOfRange (n : Int) keys)) ∧
    (n < keys.length → selectKeyPositional keys (some (n : Int)) = .ok (keys.getD n "")) := by
  refine ⟨?_, ?_, ?_, ?_⟩
  · intro hc
    simp [selectKeyTwoTier, hc]
  · intro hc hlt
    simp only [selectKeyTwoTier]
    rw [if_neg (by simp [hc])]
    rw [if_pos (by exact_mod_cast hlt)]
    rw [pyGet_natCast_of_lt keys n hlt]
  · intro hc hge
    simp only [selectKeyTwoTier]
    rw [if_neg (by simp [hc])]
    rw [if_neg (by exact_mod_cast Nat.not_lt.2 hge)]
  · intro hlt
    simp only [selectKeyPositional]
    rw [pyGet_natCast_of_lt keys n hlt]

/-- C1 counterexample: with timepoint keys in HDF5 store (alphabetical)
order `["TimePoint 0", "TimePoint 1", "TimePoint 10", "TimePoint 2"]` and
selector 2, the two-tier rule of the plain path picks the literal
"TimePoint 2", but the smart and advanced paths pick the positional
"TimePoint 10" — they ignore the literal-name match, refuting the original
claim that the identical rule holds on every conversion path. -/
theorem smart_advanced_paths_resolve_positionally :
    selectKeyTwoTier "TimePoint" cxTimePointKeys (some 2) = .ok "TimePoint 2" ∧
    selectKeyPositional cxTimePointKeys (some 2) = .ok "TimePoint 10" ∧
    convertImsToTif cx (some 2) none none = .ok (.stack [[[2]]]) ∧
    convertImsToTifSmart cx (some 2) none 10 false = .ok [[[10]]] ∧
    convertWithOptions cx "out.tif" "base" "3d_stack" (some 2) none =
      .ok (exportStack "out.tif" [[[10]]]) ∧
    ([[[10]]] : Image) ≠ ([[[2]]] : Image) :=
  ⟨rfl, rfl, rfl, rfl, rfl, by decide⟩

/-- Witness for C1: the literal-match tier applied at a concrete key group. -/
theorem timepoint_two_tier_literal_witness : selectKeyTwoTier "TimePoint" cxTimePointKeys (some 2) = .ok "TimePoint 2" :=
  (timepoint_channel_two_tier_resolution "TimePoint" cxTimePointKeys 2).1 (by decide)

/-- C2 (amended): navigation enumerates the `ResolutionLevel`-prefixed
KeyGroup and fails `NoResolutionLevels` exactly when it is empty; when it
is non-empty, navigation descends into the LITERAL key
"ResolutionLevel 0" — succeeding iff that exact key is present, and never
selecting any other key — rather than into the key at index 0 of the
group as originally claimed. -/
theorem resolution_level_literal_zero_selection (datasetKeys : List String) :
    (selectResolutionLevel datasetKeys = .error .noResolutionLevels ↔
      datasetKeys.filter (fun k => startsWithKey k "ResolutionLevel") = []) ∧
    (∀ k, selectResolutionLevel datasetKeys = .ok k → k = "ResolutionLevel 0") ∧
    ("ResolutionLevel 0" ∈ datasetKeys →
      selectResolutionLevel datasetKeys = .ok "ResolutionLevel 0") ∧
    (datasetKeys.filter (fun k => startsWithKey k "ResolutionLevel") ≠ [] →
      "ResolutionLevel 0" ∉ datasetKeys →
      selectResolutionLevel datasetKeys = .error .resolutionLevel0Missing) := by
  refine ⟨⟨?_, ?_⟩, ?_, ?_, ?_⟩
  · intro h
    by_contra hne
    simp only [selectResolutionLevel] at h
    rw [if_neg (by rw [List.isEmpty_iff]; exact hne)] at h
    split at h <;> simp at h
  · intro h
    simp [selectResolutionLevel, h]
  · intro k hk
    simp only [selectResolutionLevel] at hk
    split at hk
    · simp at hk
    · split at hk
      · injection hk with h
        exact h.symm
      · simp at hk
  · intro h2
    have hmf : "ResolutionLevel 0" ∈
        datasetKeys.filter (fun k => startsWithKey k "ResolutionLevel") :=
      List.mem_filter.mpr ⟨h2, by rfl⟩
    simp only [selectResolutionLevel]
    rw [if_neg (by rw [List.isEmpty_iff]; exact List.ne_nil_of_mem hmf)]
    rw [if_pos (by simpa using h2)]
  · intro hne h2
    simp only [selectResolutionLevel]
    rw [if_neg (by rw [List.isEmpty_iff]; exact hne)]
    rw [if_neg (by simpa using h2)]

/-- C2 counterexample: a container whose only resolution level is named
"ResolutionLevel 1". The KeyGroup is non-empty (its index 0 is
"ResolutionLevel 1"), so the original claim says navigation descends into
it; the code instead fails because the literal "ResolutionLevel 0" is
absent. -/
theorem resolution_level_index0_not_used :
    (["ResolutionLevel 1"].filter (fun k => startsWithKey k "ResolutionLevel") =
      ["ResolutionLevel 1"]) ∧
    selectResolutionLevel ["ResolutionLevel 1"] = .error .resolutionLevel0Missing ∧
    convertImsToTif c2x none none none = .error .resolutionLevel0Missing :=
  ⟨rfl, rfl, rfl⟩

/-- Witness for C2: literal selection succeeds when "ResolutionLevel 0" is present. -/
theorem resolution_level_zero_witness : selectResolutionLevel ["ResolutionLevel 0"] = .ok "ResolutionLevel 0" :=
  (resolution_level_literal_zero_selection ["ResolutionLevel 0"]).2.2.1 (by decide)

/-- C3: the empty-slice filter classifies slice `z` (along axis 0) as
non-empty iff its maximum element strictly exceeds the threshold; the
retained index sequence is strictly ascending and a subset of
`[0, depth)`; on the synthetic `(5, 4, 4)` array whose slices 0, 2, 4 have
max 50 and slices 1, 3 have max 0, filtering at threshold 10 retains
exactly `[0, 2, 4]`; and the default threshold is 10. -/
theorem empty_slice_filter_classification (img : Image) (t : Nat) :
    (∀ z : Nat, z ∈ nonEmptyIndices img t ↔ z < img.length ∧ t < sliceMax (img.getD z [])) ∧
    List.Sorted (· < ·) (nonEmptyIndices img t) ∧
    (∀ z ∈ nonEmptyIndices img t, z < img.length) ∧
    nonEmptyIndices testImage554 10 = [0, 2, 4] ∧
    defaultEmptyThreshold = 10 := by
  have hmem : ∀ z : Nat, z ∈ nonEmptyIndices img t ↔
      z < img.length ∧ t < sliceMax (img.getD z []) := by
    intro z
    simp [nonEmptyIndices, List.mem_filter, List.mem_range]
  refine ⟨hmem, ?_, fun z hz => ((hmem z).mp hz).1, rfl, rfl⟩
  exact (List.sorted_lt_range img.length).filter _

/-- C4: when every slice's maximum is at most the threshold (empty
retained set), the smart conversion discards the filter result and uses
the original image unchanged (only a printed warning, no error is
raised — `smartFilter` is total); the output depth equals the input depth
and a zero-depth output is never produced from a non-empty input. -/
theorem all_empty_falls_back_to_unfiltered (img : Image) (t : Nat)
    (h : ∀ z : Nat, z < img.length → sliceMax (img.getD z []) ≤ t) :
    smartFilter img t = img ∧ (smartFilter img t).length = img.length ∧
    (img ≠ [] → smartFilter img t ≠ []) := by
  have hidx : nonEmptyIndices img t = [] := by
    rw [nonEmptyIndices, List.filter_eq_nil_iff]
    intro a ha
    rw [List.mem_range] at ha
    simpa using Nat.not_lt.2 (h a ha)
  have hsf : smartFilter img t = img := by
    simp [smartFilter, hidx]
  exact ⟨hsf, by rw [hsf], fun hne => by rw [hsf]; exact hne⟩

/-- Witness for C4: fallback on a concrete all-empty image at threshold 10. -/
theorem all_empty_fallback_witness : smartFilter [constPlane 2 2 0, constPlane 2 2 5] 10 = [constPlane 2 2 0, constPlane 2 2 5] :=
  (all_empty_falls_back_to_unfiltered [constPlane 2 2 0, constPlane 2 2 5] 10 (by decide)).1

/-- C5: over a fixed discovered file list, (a) every file contributes
exactly one outcome (successful + failed + skipped = total), so no file's
failure aborts the batch; (b) a file whose output exists when overwrite is
off is recorded as skipped, independently of what its conversion would
have produced (extraction is not invoked); (c) a non-skipped file whose
conversion returns False or raises is recorded as failed with its name
appended to the failed list; (d) the batch over `l1 ++ l2` keeps
processing `l2` after `l1`, whatever the outcomes in `l1`. -/
theorem batch_skip_and_failure_isolation (overwrite : Bool) (files : List FileSpec) :
    ((convertAllFiles overwrite files).successful + (convertAllFiles overwrite files).failed +
        (convertAllFiles overwrite files).skipped = files.length ∧
      (convertAllFiles overwrite files).totalFound = files.length) ∧
    (∀ (st : BatchStats) (name : String) (r r' : ConvOutcome),
      processFile false st ⟨name, true, r⟩ = { st with skipped := st.skipped + 1 } ∧
      processFile false st ⟨name, true, r⟩ = processFile false st ⟨name, true, r'⟩) ∧
    (∀ (st : BatchStats) (f : FileSpec), (f.outputExists && !overwrite) = false →
      f.result ≠ .ok →
      processFile overwrite st f =
        { st with failed := st.failed + 1, failedFiles := st.failedFiles ++ [f.name] }) ∧
    (∀ l1 l2 : List FileSpec, convertAllFiles overwrite (l1 ++ l2) =
      l2.foldl (processFile overwrite) (l1.foldl (processFile overwrite)
        (initialStats (l1 ++ l2).length))) := by
  refine ⟨?_, ?_, ?_, ?_⟩
  · have h := foldl_processFile_outcome_sum overwrite files (initialStats files.length)
    rw [convertAllFiles, h.1, h.2]
    constructor <;> simp [initialStats]
  · intro st name r r'
    constructor
    · simp [processFile]
    · simp [processFile]
  · intro st f hcond hres
    unfold processFile
    rw [if_neg (by simp [hcond])]
    cases hf : f.result
    · exact absurd hf hres
    · rfl
    · rfl
  · intro l1 l2
    simp [convertAllFiles, List.foldl_append]

/-- Witness for C5: a concrete existing-output file is recorded as skipped. -/
theorem batch_skip_witness :
    processFile false (initialStats 1) ⟨"a.ims", true, .ok⟩ =
      { initialStats 1 with skipped := 1 } :=
  ((batch_skip_and_failure_isolation false [⟨"a.ims", true, .ok⟩]).2.1 (initialStats 1) "a.ims" .ok .ok).1

/-- C6: with exactly 2 channel keys and no literal key "Channel 5",
selecting channel 5 fails with `IndexOutOfRange` carrying the requested
index 5 and the available key list (of length 2) — both shown
component-wise and on the full plain conversion path; and in general an
`IndexOutOfRange` failure of two-tier selection always carries the actual
requested index and the actual key group. -/
theorem index_out_of_range_carries_request_and_count (pfx : String) (keys avail : List String) (n m : Int) :
    (keys.length = 2 → (pfx ++ " " ++ toString (5 : Int)) ∉ keys →
      selectKeyTwoTier pfx keys (some 5) = .error (.indexOutOfRange 5 keys)) ∧
    (selectKeyTwoTier pfx keys (some n) = .error (.indexOutOfRange m avail) →
      m = n ∧ avail = keys) ∧
    convertImsToTif c6x none (some 5) none =
      .error (.indexOutOfRange 5 c6ChannelKeys) ∧
    c6ChannelKeys.length = 2 := by
  refine ⟨?_, ?_, rfl, rfl⟩
  · intro hlen hc
    simp only [selectKeyTwoTier]
    rw [if_neg (by simp [hc])]
    rw [if_neg (by rw [hlen]; decide)]
  · intro h
    simp only [selectKeyTwoTier] at h
    split at h
    · simp at h
    · split at h
      · split at h
        · simp at h
        · simp at h
      · rw [Except.error.injEq, NavError.indexOutOfRange.injEq] at h
        exact ⟨h.1.symm, h.2.symm⟩

/-- Witness for C6: channel 5 of 2 fails with the request and the key group. -/
theorem channel_five_of_two_witness : selectKeyTwoTier "Channel" c6ChannelKeys (some 5) =
    .error (.indexOutOfRange 5 c6ChannelKeys) :=
  (index_out_of_range_carries_request_and_count "Channel" c6ChannelKeys [] 0 0).1 rfl (by decide)

/-- C7: per-slice export produces exactly `depth` artifacts (depth taken
from the array passed in), one per leading-axis index in order, each named
by its zero-padded index with a minimum width of 3 digits; a 3-slice array
yields exactly the names with indices 000, 001, 002. -/
theorem individual_slice_export_naming (base : String) (img : Image) :
    (exportIndividualSlices base img).length = img.length ∧
    (∀ z : Nat, z < img.length →
      (exportIndividualSlices base img)[z]? =
        some { path := base ++ "_z" ++ pyFormat03d z ++ ".tif"
               payload := .plane (img.getD z [])
               options := defaultWriteOptions }) ∧
    (∀ k : Nat, 3 ≤ (pyFormat03d k).length) ∧
    (∀ p1 p2 p3 : Plane,
      (exportIndividualSlices base [p1, p2, p3]).map Artifact.path =
        [base ++ "_z000.tif", base ++ "_z001.tif", base ++ "_z002.tif"]) := by
  refine ⟨?_, ?_, ?_, ?_⟩
  · simp [exportIndividualSlices]
  · intro z hz
    rw [exportIndividualSlices, List.getElem?_map, List.getElem?_range hz]
    rfl
  · intro k
    rw [pyFormat03d]
    split
    · rename_i hlt
      rw [strLengthAppend]
      have hr : (String.mk (List.replicate (3 - (toString k).length) '0')).length
          = 3 - (toString k).length := by
        show (List.replicate (3 - (toString k).length) '0').length = _
        exact List.length_replicate _ _
      rw [hr]
      omega
    · rename_i hge
      omega
  · intro p1 p2 p3
    have h0 : base ++ "_z" ++ pyFormat03d 0 ++ ".tif" = base ++ "_z000.tif" := by
      rw [strAppendAssoc, strAppendAssoc]
      rfl
    have h1 : base ++ "_z" ++ pyFormat03d 1 ++ ".tif" = base ++ "_z001.tif" := by
      rw [strAppendAssoc, strAppendAssoc]
      rfl
    have h2 : base ++ "_z" ++ pyFormat03d 2 ++ ".tif" = base ++ "_z002.tif" := by
      rw [strAppendAssoc, strAppendAssoc]
      rfl
    show [base ++ "_z" ++ pyFormat03d 0 ++ ".tif", base ++ "_z" ++ pyFormat03d 1 ++ ".tif",
          base ++ "_z" ++ pyFormat03d 2 ++ ".tif"] =
      [base ++ "_z000.tif", base ++ "_z001.tif", base ++ "_z002.tif"]
    rw [h0, h1, h2]

/-- Witness for C7: the first artifact of a concrete export is named with index 000. -/
theorem individual_slice_export_witness :
    (exportIndividualSlices "b" [[[1]]])[0]? =
      some { path := "b_z000.tif", payload := .plane [[1]], options := defaultWriteOptions } :=
  (individual_slice_export_naming "b" [[[1]]]).2.1 0 (by decide)

/-- C8: OME export produces exactly one artifact carrying the fixed
metadata record — axes "ZYX", channel name "Channel 0", physical sizes X,
Y, Z all equal 1 in micrometer units (the source's literal unit string is
the mis-encoded "¬µm") — with the lossless LZW compression codec enabled. -/
theorem ome_export_fixed_metadata (outputPath : String) (img : Image) :
    (exportOmeTiff outputPath img).length = 1 ∧
    exportOmeTiff outputPath img =
      [{ path := outputPath, payload := .stack img,
         options := { metadata := some omeMetadata, compression := some "lzw",
                      predictor := false } }] ∧
    omeMetadata.axes = "ZYX" ∧
    omeMetadata.channelName = "Channel 0" ∧
    omeMetadata.physicalSizeX = 1 ∧
    omeMetadata.physicalSizeY = 1 ∧
    omeMetadata.physicalSizeZ = 1 ∧
    omeMetadata.physicalSizeXUnit = "¬µm" ∧
    omeMetadata.physicalSizeYUnit = "¬µm" ∧
    omeMetadata.physicalSizeZUnit = "¬µm" :=
  ⟨rfl, rfl, rfl, rfl, rfl, rfl, rfl, rfl, rfl, rfl⟩

/-- C9: with a non-empty retained index set, the filtered output consists
of exactly the retained slices of the original image in ascending index
order: output slice `j` equals input slice `retainedIndices[j]`; no pixel
is altered and no slice reordered. -/
theorem filter_preserves_retained_slices (img : Image) (t : Nat) (h : nonEmptyIndices img t ≠ []) :
    (smartFilter img t).length = (nonEmptyIndices img t).length ∧
    ∀ j (hj : j < (nonEmptyIndices img t).length),
      (smartFilter img t)[j]? = img[(nonEmptyIndices img t).get ⟨j, hj⟩]? := by
  have hlt : ∀ z ∈ nonEmptyIndices img t, z < img.length := by
    intro z hz
    have := List.mem_filter.mp hz
    exact List.mem_range.mp this.1
  have hsf : smartFilter img t = (nonEmptyIndices img t).map (fun z => img.getD z []) := by
    rw [smartFilter]
    rw [if_neg (by simpa [List.isEmpty_iff] using h)]
    exact filterMap_getElem_eq_map img _ hlt
  refine ⟨by rw [hsf, List.length_map], ?_⟩
  intro j hj
  have hjm : (nonEmptyIndices img t).get ⟨j, hj⟩ ∈ nonEmptyIndices img t :=
    List.get_mem _ _ hj
  have hz : (nonEmptyIndices img t).get ⟨j, hj⟩ < img.length := hlt _ hjm
  simp only [List.get_eq_getElem] at hz ⊢
  rw [hsf, List.getElem?_map]
  rw [List.getElem?_eq_getElem hj]
  rw [List.getElem?_eq_getElem hz]
  simp [List.getD_eq_getElem img [] hz, List.getElem?_eq_getElem hz]

/-- Witness for C9: output depth equals retained count on the worked example. -/
theorem filter_preserves_witness : (smartFilter testImage554 10).length = (nonEmptyIndices testImage554 10).length :=
  (filter_preserves_retained_slices testImage554 10 (by decide)).1

/-- C10: for a negative z-slice selector `z` with `-depth ≤ z < 0`,
single-slice extraction does not fail but returns the slice at index
`depth + z` (counting from the end); the explicit out-of-range check
rejects exactly the selectors with `z ≥ depth`. -/
theorem negative_z_slice_counts_from_end (img : Image) (z : Int) :
    (-(img.length : Int) ≤ z → z < 0 →
      applyZSlice img (some z) =
        .ok (.plane (img.getD ((img.length : Int) + z).toNat []))) ∧
    (applyZSlice img (some z) = .error (.zSliceOutOfRange z img.length) ↔
      (img.length : Int) ≤ z) := by
  constructor
  · intro h1 h2
    have hnot : ¬ (img.length : Int) ≤ z := by omega
    simp only [applyZSlice]
    rw [if_neg hnot]
    have hnn : ¬ 0 ≤ z := by omega
    rw [pyGet, if_neg hnn, if_pos h1]
    have hlt : ((img.length : Int) + z).toNat < img.length := by omega
    rw [List.getElem?_eq_getElem hlt, List.getD_eq_getElem img [] hlt]
  · constructor
    · intro h
      by_contra hnot
      simp only [applyZSlice] at h
      rw [if_neg hnot] at h
      split at h <;> simp at h
    · intro h
      simp [applyZSlice, h]

/-- Witness for C10: selector -1 on a depth-2 stack returns the last slice. -/
theorem negative_z_slice_witness : applyZSlice [[[1]], [[2]]] (some (-1)) = .ok (.plane [[2]]) :=
  (negative_z_slice_counts_from_end [[[1]], [[2]]] (-1)).1 (by decide) (by decide)

/-- Witness for C3: the subset bound applied at a concrete retained index
of the worked example. -/
theorem empty_slice_filter_witness : (0 : Nat) < testImage554.length :=
  (empty_slice_filter_classification testImage554 10).2.2.1 0 (by decide)

end Ims2Tif
